import Mathlib

/-!
Verification of the CSS selector builder (`SelectorChain`) from
`src/05-objects-tasks.js` against its natural-language specification.

The builder is a mutable object with fields `selectorChain` (the accumulated
text), three singleton-occurrence counters (`idCount`, `elementCount`,
`pseudoElementCount`) and `selectorOrder` (the rank of the most recently
appended part).  Each part-append method mutates the object and either
returns it or throws.  We embed each method as a function from the pre-state
to a pair of the thrown error (if any) and the post-state; JavaScript
mutations performed before a throw persist, so the post-state is returned
also on the error path.
-/

/-- Error kinds thrown by the builder.  The source throws generic `Error`s
with two distinct messages; the spec names them `DuplicatePartError` and
`OrderViolationError`.  `errorMessage` below records the source's texts. -/
inductive SelectorError where
  | orderViolation
  | duplicatePart
deriving Repr, DecidableEq

/-- Message texts of the two throws in the source. -/
def SelectorError.errorMessage : SelectorError → String
  | .orderViolation => "Selector parts should be arranged in the following order: element, id, class, attribute, pseudo-class, pseudo-element"
  | .duplicatePart => "Element, id and pseudo-element should not occur more then one time inside the selector"

/-- State of a `SelectorChain` object: its five instance fields. -/
structure SelectorChain where
  selectorChain : String
  idCount : Nat
  elementCount : Nat
  pseudoElementCount : Nat
  selectorOrder : Nat
deriving Repr, DecidableEq

namespace SelectorChain

/-- The constructor: `selectorChain = ''`, all counters and `selectorOrder` 0. -/
def new : SelectorChain :=
  { selectorChain := "", idCount := 0, elementCount := 0,
    pseudoElementCount := 0, selectorOrder := 0 }

/-- `checkSelectorsOrder(currentOrder)`: throws when
`this.selectorOrder > currentOrder`. -/
def checkSelectorsOrder (s : SelectorChain) (currentOrder : Nat) : Option SelectorError :=
  if s.selectorOrder > currentOrder then some SelectorError.orderViolation else none

/-- `checkOccurence()`: throws when
`this.idCount > 1 || this.pseudoElementCount > 1 || this.elementCount > 1`. -/
def checkOccurence (s : SelectorChain) : Option SelectorError :=
  if s.idCount > 1 ∨ s.pseudoElementCount > 1 ∨ s.elementCount > 1 then
    some SelectorError.duplicatePart
  else none

/-- `element(value)`: increment `elementCount`, check occurrence, check order
against rank 1, append `value`, set `selectorOrder` to 1. -/
def element (s0 : SelectorChain) (value : String) : Option SelectorError × SelectorChain :=
  let s : SelectorChain := { s0 with elementCount := s0.elementCount + 1 }
  match s.checkOccurence with
  | some e => (some e, s)
  | none =>
    match s.checkSelectorsOrder 1 with
    | some e => (some e, s)
    | none => (none, { s with selectorChain := s.selectorChain ++ value, selectorOrder := 1 })

/-- `id(value)`: increment `idCount`, check occurrence, check order against
rank 2, append `#value`, set `selectorOrder` to 2. -/
def id (s0 : SelectorChain) (value : String) : Option SelectorError × SelectorChain :=
  let s : SelectorChain := { s0 with idCount := s0.idCount + 1 }
  match s.checkOccurence with
  | some e => (some e, s)
  | none =>
    match s.checkSelectorsOrder 2 with
    | some e => (some e, s)
    | none => (none, { s with selectorChain := s.selectorChain ++ "#" ++ value, selectorOrder := 2 })

/-- `class(value)` (renamed: `class` is reserved in Lean, the spec's public
surface calls it `classPart`): check order against rank 3, append `.value`,
set `selectorOrder` to 3. -/
def classPart (s : SelectorChain) (value : String) : Option SelectorError × SelectorChain :=
  match s.checkSelectorsOrder 3 with
  | some e => (some e, s)
  | none => (none, { s with selectorChain := s.selectorChain ++ "." ++ value, selectorOrder := 3 })

/-- `attr(value)`: check order against rank 4, append `[value]`, set
`selectorOrder` to 4. -/
def attr (s : SelectorChain) (value : String) : Option SelectorError × SelectorChain :=
  match s.checkSelectorsOrder 4 with
  | some e => (some e, s)
  | none => (none, { s with selectorChain := s.selectorChain ++ "[" ++ value ++ "]", selectorOrder := 4 })

/-- `pseudoClass(value)`: check order against rank 5, append `:value`, set
`selectorOrder` to 5. -/
def pseudoClass (s : SelectorChain) (value : String) : Option SelectorError × SelectorChain :=
  match s.checkSelectorsOrder 5 with
  | some e => (some e, s)
  | none => (none, { s with selectorChain := s.selectorChain ++ ":" ++ value, selectorOrder := 5 })

/-- `pseudoElement(value)`: check order against rank 6 first, then increment
`pseudoElementCount`, check occurrence, append `::value`, set `selectorOrder`
to 6. -/
def pseudoElement (s : SelectorChain) (value : String) : Option SelectorError × SelectorChain :=
  match s.checkSelectorsOrder 6 with
  | some e => (some e, s)
  | none =>
    let s1 : SelectorChain := { s with pseudoElementCount := s.pseudoElementCount + 1 }
    match s1.checkOccurence with
    | some e => (some e, s1)
    | none => (none, { s1 with selectorChain := s1.selectorChain ++ "::" ++ value, selectorOrder := 6 })

/-- `combine(selector1, combinator, selector2)`: overwrites `this.selectorChain`
with the two inputs' texts joined by the combinator padded with single
spaces; no other field of `this` is assigned. -/
def combine (s : SelectorChain) (selector1 : SelectorChain) (combinator : String)
    (selector2 : SelectorChain) : SelectorChain :=
  { s with selectorChain :=
      selector1.selectorChain ++ " " ++ combinator ++ " " ++ selector2.selectorChain }

/-- Three-object footprint of `combine`: the source method reads
`selector1.selectorChain` and `selector2.selectorChain` but assigns only
`this.selectorChain`, so the post-states of the two argument objects equal
their pre-states. -/
def combineFull (s : SelectorChain) (selector1 : SelectorChain) (combinator : String)
    (selector2 : SelectorChain) : SelectorChain × SelectorChain × SelectorChain :=
  (s.combine selector1 combinator selector2, selector1, selector2)

/-- `stringify()`: returns the current `selectorChain` and resets it to the
empty string; no other field is assigned. -/
def stringify (s : SelectorChain) : String × SelectorChain :=
  (s.selectorChain, { s with selectorChain := "" })

end SelectorChain

/-- The six part kinds of the builder, in source order. -/
inductive PartKind where
  | element
  | id
  | classPart
  | attr
  | pseudoClass
  | pseudoElement
deriving Repr, DecidableEq, BEq

/-- Rank of a part kind: the `currentOrder` argument each append method
passes to `checkSelectorsOrder` (and stores into `selectorOrder`). -/
def PartKind.rank : PartKind → Nat
  | .element => 1
  | .id => 2
  | .classPart => 3
  | .attr => 4
  | .pseudoClass => 5
  | .pseudoElement => 6

/-- Whether the kind has a singleton-occurrence counter in the source. -/
def PartKind.isSingleton : PartKind → Bool
  | .element => true
  | .id => true
  | .pseudoElement => true
  | _ => false

/-- Rendered form each append method concatenates onto `selectorChain`. -/
def PartKind.render : PartKind → String → String
  | .element, v => v
  | .id, v => "#" ++ v
  | .classPart, v => "." ++ v
  | .attr, v => "[" ++ v ++ "]"
  | .pseudoClass, v => ":" ++ v
  | .pseudoElement, v => "::" ++ v

/-- Dispatch a part append to the corresponding method of the source. -/
def appendPart (s : SelectorChain) : PartKind → String → Option SelectorError × SelectorChain
  | .element, v => s.element v
  | .id, v => s.id v
  | .classPart, v => s.classPart v
  | .attr, v => s.attr v
  | .pseudoClass, v => s.pseudoClass v
  | .pseudoElement, v => s.pseudoElement v

/-- Run a fluent chain of part appends; the first throw aborts the chain
(as an uncaught JavaScript exception would), returning the error and the
state of the builder at the moment of the throw. -/
def runParts (s : SelectorChain) : List (PartKind × String) → Option SelectorError × SelectorChain
  | [] => (none, s)
  | (k, v) :: rest =>
    match appendPart s k v with
    | (none, s') => runParts s' rest
    | (some e, s') => (some e, s')

/-- Indicator used to count occurrences of one kind: `bump k target` is 1
when `k` is `target`, 0 otherwise. -/
def bump : PartKind → PartKind → Nat
  | .element, .element => 1
  | .id, .id => 1
  | .classPart, .classPart => 1
  | .attr, .attr => 1
  | .pseudoClass, .pseudoClass => 1
  | .pseudoElement, .pseudoElement => 1
  | _, _ => 0

/-- Number of parts of kind `k` in a chain of appends. -/
def countKind (k : PartKind) : List (PartKind × String) → Nat
  | [] => 0
  | (k', _) :: ps => countKind k ps + bump k' k

/-- The ranks of the parts are non-decreasing, starting from `prev`. -/
def nondecreasingFrom : Nat → List (PartKind × String) → Bool
  | _, [] => true
  | prev, (k, _) :: rest => decide (prev ≤ k.rank) && nondecreasingFrom k.rank rest

/-- Concatenation, in order with no separators, of the rendered forms. -/
def renderAll : List (PartKind × String) → String
  | [] => ""
  | (k, v) :: rest => k.render v ++ renderAll rest

/- The facade `cssSelectorBuilder`: each entry point constructs a fresh
`SelectorChain` and invokes the corresponding method. -/
namespace cssSelectorBuilder

def element (value : String) : Option SelectorError × SelectorChain :=
  SelectorChain.new.element value

def id (value : String) : Option SelectorError × SelectorChain :=
  SelectorChain.new.id value

def classPart (value : String) : Option SelectorError × SelectorChain :=
  SelectorChain.new.classPart value

def attr (value : String) : Option SelectorError × SelectorChain :=
  SelectorChain.new.attr value

def pseudoClass (value : String) : Option SelectorError × SelectorChain :=
  SelectorChain.new.pseudoClass value

def pseudoElement (value : String) : Option SelectorError × SelectorChain :=
  SelectorChain.new.pseudoElement value

def combine (s1 : SelectorChain) (combinator : String) (s2 : SelectorChain) : SelectorChain :=
  SelectorChain.new.combine s1 combinator s2

end cssSelectorBuilder

/-- Characterization of `element`: an if-then-else normal form of the method. -/
theorem element_ite (s0 : SelectorChain) (v : String) :
    s0.element v =
      if 1 < s0.idCount ∨ 1 < s0.pseudoElementCount ∨ 1 < s0.elementCount + 1 then
        (some SelectorError.duplicatePart, { s0 with elementCount := s0.elementCount + 1 })
      else if 1 < s0.selectorOrder then
        (some SelectorError.orderViolation, { s0 with elementCount := s0.elementCount + 1 })
      else
        (none,
          { s0 with
              elementCount := s0.elementCount + 1,
              selectorChain := s0.selectorChain ++ v,
              selectorOrder := 1 }) := by
  simp only [SelectorChain.element, SelectorChain.checkOccurence, SelectorChain.checkSelectorsOrder]
  dsimp only
  by_cases h1 : 1 < s0.idCount ∨ 1 < s0.pseudoElementCount ∨ 1 < s0.elementCount + 1
  · rw [if_pos h1, if_pos h1]
  · rw [if_neg h1, if_neg h1]
    by_cases h2 : 1 < s0.selectorOrder
    · rw [if_pos h2, if_pos h2]
    · rw [if_neg h2, if_neg h2]

/-- Characterization of `id`: an if-then-else normal form of the method. -/
theorem id_ite (s0 : SelectorChain) (v : String) :
    s0.id v =
      if 1 < s0.idCount + 1 ∨ 1 < s0.pseudoElementCount ∨ 1 < s0.elementCount then
        (some SelectorError.duplicatePart, { s0 with idCount := s0.idCount + 1 })
      else if 2 < s0.selectorOrder then
        (some SelectorError.orderViolation, { s0 with idCount := s0.idCount + 1 })
      else
        (none,
          { s0 with
              idCount := s0.idCount + 1,
              selectorChain := s0.selectorChain ++ "#" ++ v,
              selectorOrder := 2 }) := by
  simp only [SelectorChain.id, SelectorChain.checkOccurence, SelectorChain.checkSelectorsOrder]
  dsimp only
  by_cases h1 : 1 < s0.idCount + 1 ∨ 1 < s0.pseudoElementCount ∨ 1 < s0.elementCount
  · rw [if_pos h1, if_pos h1]
  · rw [if_neg h1, if_neg h1]
    by_cases h2 : 2 < s0.selectorOrder
    · rw [if_pos h2, if_pos h2]
    · rw [if_neg h2, if_neg h2]

/-- Characterization of `class` (`classPart`). -/
theorem classPart_ite (s : SelectorChain) (v : String) :
    s.classPart v =
      if 3 < s.selectorOrder then (some SelectorError.orderViolation, s)
      else
        (none,
          { s with
              selectorChain := s.selectorChain ++ "." ++ v,
              selectorOrder := 3 }) := by
  simp only [SelectorChain.classPart, SelectorChain.checkSelectorsOrder]
  by_cases h : 3 < s.selectorOrder
  · rw [if_pos h, if_pos h]
  · rw [if_neg h, if_neg h]

/-- Characterization of `attr`. -/
theorem attr_ite (s : SelectorChain) (v : String) :
    s.attr v =
      if 4 < s.selectorOrder then (some SelectorError.orderViolation, s)
      else
        (none,
          { s with
              selectorChain := s.selectorChain ++ "[" ++ v ++ "]",
              selectorOrder := 4 }) := by
  simp only [SelectorChain.attr, SelectorChain.checkSelectorsOrder]
  by_cases h : 4 < s.selectorOrder
  · rw [if_pos h, if_pos h]
  · rw [if_neg h, if_neg h]

/-- Characterization of `pseudoClass`. -/
theorem pseudoClass_ite (s : SelectorChain) (v : String) :
    s.pseudoClass v =
      if 5 < s.selectorOrder then (some SelectorError.orderViolation, s)
      else
        (none,
          { s with
              selectorChain := s.selectorChain ++ ":" ++ v,
              selectorOrder := 5 }) := by
  simp only [SelectorChain.pseudoClass, SelectorChain.checkSelectorsOrder]
  by_cases h : 5 < s.selectorOrder
  · rw [if_pos h, if_pos h]
  · rw [if_neg h, if_neg h]

/-- Characterization of `pseudoElement`: the order check precedes the counter
increment and the occurrence check. -/
theorem pseudoElement_ite (s : SelectorChain) (v : String) :
    s.pseudoElement v =
      if 6 < s.selectorOrder then (some SelectorError.orderViolation, s)
      else if 1 < s.idCount ∨ 1 < s.pseudoElementCount + 1 ∨ 1 < s.elementCount then
        (some SelectorError.duplicatePart,
          { s with pseudoElementCount := s.pseudoElementCount + 1 })
      else
        (none,
          { s with
              pseudoElementCount := s.pseudoElementCount + 1,
              selectorChain := s.selectorChain ++ "::" ++ v,
              selectorOrder := 6 }) := by
  simp only [SelectorChain.pseudoElement, SelectorChain.checkOccurence,
    SelectorChain.checkSelectorsOrder]
  dsimp only
  by_cases h1 : 6 < s.selectorOrder
  · rw [if_pos h1, if_pos h1]
  · rw [if_neg h1, if_neg h1]
    by_cases h2 : 1 < s.idCount ∨ 1 < s.pseudoElementCount + 1 ∨ 1 < s.elementCount
    · rw [if_pos h2, if_pos h2]
    · rw [if_neg h2, if_neg h2]

/-- A successful append: when the relevant counters stay within bounds and the
rank respects the current order, every append method returns no error, appends
the rendered form, bumps the kind's counter and records the kind's rank. -/
theorem appendPart_ok (s : SelectorChain) (k : PartKind) (v : String)
    (hord : s.selectorOrder ≤ k.rank)
    (he : s.elementCount + bump k PartKind.element ≤ 1)
    (hi : s.idCount + bump k PartKind.id ≤ 1)
    (hp : s.pseudoElementCount + bump k PartKind.pseudoElement ≤ 1) :
    appendPart s k v =
      (none, { selectorChain := s.selectorChain ++ k.render v,
               idCount := s.idCount + bump k PartKind.id,
               elementCount := s.elementCount + bump k PartKind.element,
               pseudoElementCount := s.pseudoElementCount + bump k PartKind.pseudoElement,
               selectorOrder := k.rank }) := by
  cases k <;>
    simp_all [appendPart, SelectorChain.element, SelectorChain.id, SelectorChain.classPart,
      SelectorChain.attr, SelectorChain.pseudoClass, SelectorChain.pseudoElement,
      SelectorChain.checkOccurence, SelectorChain.checkSelectorsOrder,
      PartKind.rank, PartKind.render, bump, String.append_assoc] <;>
    (repeat rw [if_neg (by omega)])

/-- Central lemma: a chain of appends whose ranks are non-decreasing from the
builder's current `selectorOrder` and whose singleton counts fit within the
budget left by the builder's counters succeeds, appending exactly the
concatenated rendered forms and accumulating counters and rank. -/
theorem runParts_ok : ∀ (ps : List (PartKind × String)) (s : SelectorChain),
    nondecreasingFrom s.selectorOrder ps = true →
    s.elementCount + countKind PartKind.element ps ≤ 1 →
    s.idCount + countKind PartKind.id ps ≤ 1 →
    s.pseudoElementCount + countKind PartKind.pseudoElement ps ≤ 1 →
    (runParts s ps).1 = none ∧
    (runParts s ps).2.selectorChain = s.selectorChain ++ renderAll ps
  | [], s, _, _, _, _ => by
    simp [runParts, renderAll, String.append_empty]
  | (k, v) :: rest, s, hord, he, hi, hp => by
    rw [nondecreasingFrom] at hord
    rw [countKind] at he hi hp
    have hord1 : s.selectorOrder ≤ k.rank := by
      have := Bool.and_elim_left hord
      simpa using this
    have hord2 : nondecreasingFrom k.rank rest = true := Bool.and_elim_right hord
    have hbe : s.elementCount + bump k PartKind.element ≤ 1 := by omega
    have hbi : s.idCount + bump k PartKind.id ≤ 1 := by omega
    have hbp : s.pseudoElementCount + bump k PartKind.pseudoElement ≤ 1 := by omega
    have hstep := appendPart_ok s k v hord1 hbe hbi hbp
    have hrec := runParts_ok rest
      { selectorChain := s.selectorChain ++ k.render v,
        idCount := s.idCount + bump k PartKind.id,
        elementCount := s.elementCount + bump k PartKind.element,
        pseudoElementCount := s.pseudoElementCount + bump k PartKind.pseudoElement,
        selectorOrder := k.rank }
      hord2 (by dsimp only; omega) (by dsimp only; omega) (by dsimp only; omega)
    rw [runParts]
    rw [hstep]
    simp only [renderAll]
    constructor
    · exact hrec.1
    · rw [hrec.2]
      simp [String.append_assoc]

/-- The error outcome of an append depends only on the validation state
(the three counters and `selectorOrder`), never on the accumulated text. -/
theorem appendPart_error_congr (s t : SelectorChain) (k : PartKind) (v : String)
    (hid : s.idCount = t.idCount) (hel : s.elementCount = t.elementCount)
    (hpe : s.pseudoElementCount = t.pseudoElementCount)
    (hord : s.selectorOrder = t.selectorOrder) :
    (appendPart s k v).1 = (appendPart t k v).1 := by
  cases k <;>
    simp only [appendPart, element_ite, id_ite, classPart_ite, attr_ite,
      pseudoClass_ite, pseudoElement_ite, hid, hel, hpe, hord] <;>
    split_ifs <;> rfl


/-- C1: For every sequence of part appends on a freshly constructed builder
in which each part's rank is at least the rank of the previous part and no
singleton kind occurs more than once, every append succeeds and `stringify()`
returns the concatenation, in call order with no separators, of the parts'
rendered forms; in particular `id('main')`, `class('container')`,
`class('editable')`, `stringify()` returns `"#main.container.editable"`. -/
theorem c1_valid_chain_renders_concatenation (ps : List (PartKind × String))
    (hord : nondecreasingFrom SelectorChain.new.selectorOrder ps = true)
    (he : countKind PartKind.element ps ≤ 1)
    (hi : countKind PartKind.id ps ≤ 1)
    (hp : countKind PartKind.pseudoElement ps ≤ 1) :
    ((runParts SelectorChain.new ps).1 = none ∧
      ((runParts SelectorChain.new ps).2.stringify).1 = renderAll ps) ∧
    ((runParts SelectorChain.new
        [(PartKind.id, "main"), (PartKind.classPart, "container"),
         (PartKind.classPart, "editable")]).2.stringify).1 = "#main.container.editable" := by
  have h := runParts_ok ps SelectorChain.new hord
    (by dsimp only [SelectorChain.new]; omega)
    (by dsimp only [SelectorChain.new]; omega)
    (by dsimp only [SelectorChain.new]; omega)
  refine ⟨⟨h.1, ?_⟩, by decide⟩
  have h2 : ((runParts SelectorChain.new ps).2.stringify).1 =
      "" ++ renderAll ps := h.2
  rw [h2, String.empty_append]

/-- Witness for C1 at the chain id('main'), class('container'),
class('editable'). -/
theorem c1_witness :
    (runParts SelectorChain.new
      [(PartKind.id, "main"), (PartKind.classPart, "container"),
       (PartKind.classPart, "editable")]).1 = none ∧
    ((runParts SelectorChain.new
      [(PartKind.id, "main"), (PartKind.classPart, "container"),
       (PartKind.classPart, "editable")]).2.stringify).1 =
      renderAll [(PartKind.id, "main"), (PartKind.classPart, "container"),
       (PartKind.classPart, "editable")] :=
  (c1_valid_chain_renders_concatenation
    [(PartKind.id, "main"), (PartKind.classPart, "container"),
     (PartKind.classPart, "editable")]
    (by decide) (by decide) (by decide) (by decide)).1

/-- C2: Appending a second `element`, second `id`, or second `pseudoElement`
part to a builder that already holds one raises `DuplicatePartError`, and the
rendered form of the offending part is never appended to the accumulated
text. -/
theorem c2_second_singleton_raises_duplicate (s : SelectorChain) (v : String) :
    (1 ≤ s.elementCount →
      (s.element v).1 = some SelectorError.duplicatePart ∧
      (s.element v).2.selectorChain = s.selectorChain) ∧
    (1 ≤ s.idCount →
      (s.id v).1 = some SelectorError.duplicatePart ∧
      (s.id v).2.selectorChain = s.selectorChain) ∧
    (1 ≤ s.pseudoElementCount → s.selectorOrder ≤ 6 →
      (s.pseudoElement v).1 = some SelectorError.duplicatePart ∧
      (s.pseudoElement v).2.selectorChain = s.selectorChain) := by
  refine ⟨fun h => ?_, fun h => ?_, fun h h6 => ?_⟩
  · rw [element_ite, if_pos (by omega)]
    exact ⟨rfl, rfl⟩
  · rw [id_ite, if_pos (by omega)]
    exact ⟨rfl, rfl⟩
  · rw [pseudoElement_ite, if_neg (by omega), if_pos (by omega)]
    exact ⟨rfl, rfl⟩

/-- Witness for C2: a second `element` on a builder already holding one. -/
theorem c2_witness :
    ((SelectorChain.new.element "div").2.element "p").1 =
      some SelectorError.duplicatePart ∧
    ((SelectorChain.new.element "div").2.element "p").2.selectorChain =
      (SelectorChain.new.element "div").2.selectorChain :=
  (c2_second_singleton_raises_duplicate (SelectorChain.new.element "div").2 "p").1
    (by decide)

/-- C3: The order check raises `OrderViolationError` exactly when the
appended part's rank is strictly below `selectorOrder`, and passes when the
rank is at least `selectorOrder`; in particular a `class` part after an
`attr` part raises the error while two consecutive `class` parts succeed. -/
theorem c3_rank_order_check (s : SelectorChain) (r : Nat) (v : String) :
    (r < s.selectorOrder →
      s.checkSelectorsOrder r = some SelectorError.orderViolation) ∧
    (s.selectorOrder ≤ r → s.checkSelectorsOrder r = none) ∧
    (3 < s.selectorOrder →
      (s.classPart v).1 = some SelectorError.orderViolation) ∧
    (4 < s.selectorOrder → (s.attr v).1 = some SelectorError.orderViolation) ∧
    (5 < s.selectorOrder →
      (s.pseudoClass v).1 = some SelectorError.orderViolation) ∧
    ((SelectorChain.new.attr "href").2.classPart "c").1 =
      some SelectorError.orderViolation ∧
    (runParts SelectorChain.new
      [(PartKind.classPart, "a"), (PartKind.classPart, "b")]).1 = none := by
  refine ⟨fun h => ?_, fun h => ?_, fun h => ?_, fun h => ?_, fun h => ?_,
    by decide, by decide⟩
  · rw [SelectorChain.checkSelectorsOrder, if_pos (by omega)]
  · rw [SelectorChain.checkSelectorsOrder, if_neg (by omega)]
  · rw [classPart_ite, if_pos (by omega)]
  · rw [attr_ite, if_pos (by omega)]
  · rw [pseudoClass_ite, if_pos (by omega)]

/-- Witness for C3: the order check passes at equal rank and fails below it. -/
theorem c3_witness :
    (SelectorChain.new.attr "x").2.checkSelectorsOrder 3 =
      some SelectorError.orderViolation ∧
    (SelectorChain.new.attr "x").2.checkSelectorsOrder 4 = none ∧
    ((SelectorChain.new.attr "x").2.classPart "c").1 =
      some SelectorError.orderViolation :=
  ⟨(c3_rank_order_check (SelectorChain.new.attr "x").2 3 "c").1 (by decide),
   (c3_rank_order_check (SelectorChain.new.attr "x").2 4 "c").2.1 (by decide),
   (c3_rank_order_check (SelectorChain.new.attr "x").2 3 "c").2.2.1 (by decide)⟩

/-- C4: `combine(left, c, right)` sets the receiver's text to `left.text`,
a space, `c`, a space, `right.text`, for every combinator string; combining
builders whose texts are `"div#main"` and `"table#data"` with `"+"` yields
`"div#main + table#data"`. -/
theorem c4_combine_concatenates_with_padding
    (s l r : SelectorChain) (c : String) :
    (s.combine l c r).selectorChain =
      l.selectorChain ++ " " ++ c ++ " " ++ r.selectorChain ∧
    (l.selectorChain = "div#main" → r.selectorChain = "table#data" →
      (s.combine l "+" r).selectorChain = "div#main + table#data") := by
  refine ⟨rfl, fun h1 h2 => ?_⟩
  show l.selectorChain ++ " " ++ "+" ++ " " ++ r.selectorChain = _
  rw [h1, h2]
  decide

/-- Witness for C4 with the builders of the spec's example. -/
theorem c4_witness :
    (SelectorChain.new.combine ((SelectorChain.new.element "div").2.id "main").2
      "+" ((SelectorChain.new.element "table").2.id "data").2).selectorChain =
      "div#main + table#data" :=
  (c4_combine_concatenates_with_padding SelectorChain.new
    ((SelectorChain.new.element "div").2.id "main").2
    ((SelectorChain.new.element "table").2.id "data").2 "+").2
    (by decide) (by decide)

/-- C5: A singleton append increments its occurrence counter first (also on
failure) and raises `DuplicatePartError` exactly when any of the three
singleton counters then exceeds 1, so the check inspects the combined set of
counters; consequently once some singleton counter is above 1 every later
singleton append of any singleton kind raises `DuplicatePartError`. -/
theorem c5_occurrence_check_inspects_all_counters (s : SelectorChain) (v : String) :
    ((s.element v).2.elementCount = s.elementCount + 1 ∧
     (s.id v).2.idCount = s.idCount + 1) ∧
    ((s.element v).1 = some SelectorError.duplicatePart ↔
      1 < s.idCount ∨ 1 < s.pseudoElementCount ∨ 1 < s.elementCount + 1) ∧
    ((s.id v).1 = some SelectorError.duplicatePart ↔
      1 < s.idCount + 1 ∨ 1 < s.pseudoElementCount ∨ 1 < s.elementCount) ∧
    (s.selectorOrder ≤ 6 →
      ((s.pseudoElement v).1 = some SelectorError.duplicatePart ↔
        1 < s.idCount ∨ 1 < s.pseudoElementCount + 1 ∨ 1 < s.elementCount)) ∧
    (1 < s.idCount ∨ 1 < s.pseudoElementCount ∨ 1 < s.elementCount →
      (s.element v).1 = some SelectorError.duplicatePart ∧
      (s.id v).1 = some SelectorError.duplicatePart ∧
      (s.selectorOrder ≤ 6 →
        (s.pseudoElement v).1 = some SelectorError.duplicatePart)) := by
  refine ⟨⟨?_, ?_⟩, ?_, ?_, fun h6 => ?_, fun hover => ⟨?_, ?_, fun h6 => ?_⟩⟩
  · rw [element_ite]; split_ifs <;> rfl
  · rw [id_ite]; split_ifs <;> rfl
  · rw [element_ite]
    by_cases hC : 1 < s.idCount ∨ 1 < s.pseudoElementCount ∨ 1 < s.elementCount + 1
    · rw [if_pos hC]; simpa using hC
    · rw [if_neg hC]
      by_cases hO : 1 < s.selectorOrder
      · rw [if_pos hO]; simp [hC]; omega
      · rw [if_neg hO]; simp [hC]; omega
  · rw [id_ite]
    by_cases hC : 1 < s.idCount + 1 ∨ 1 < s.pseudoElementCount ∨ 1 < s.elementCount
    · rw [if_pos hC]; simpa using hC
    · rw [if_neg hC]
      by_cases hO : 2 < s.selectorOrder
      · rw [if_pos hO]; simp [hC]; omega
      · rw [if_neg hO]; simp [hC]; omega
  · rw [pseudoElement_ite, if_neg (by omega)]
    by_cases hC : 1 < s.idCount ∨ 1 < s.pseudoElementCount + 1 ∨ 1 < s.elementCount
    · rw [if_pos hC]; simpa using hC
    · rw [if_neg hC]; simp [hC]; omega
  · rw [element_ite, if_pos (by omega)]
  · rw [id_ite, if_pos (by omega)]
  · rw [pseudoElement_ite, if_neg (by omega), if_pos (by omega)]

/-- Witness for C5: after a failed duplicate `element` append left
`elementCount` at 2, appends of all three singleton kinds raise
`DuplicatePartError`. -/
theorem c5_witness :
    ((((SelectorChain.new.element "a").2.element "b").2.element "c").1 =
      some SelectorError.duplicatePart ∧
     (((SelectorChain.new.element "a").2.element "b").2.id "c").1 =
      some SelectorError.duplicatePart ∧
     (((SelectorChain.new.element "a").2.element "b").2.pseudoElement "c").1 =
      some SelectorError.duplicatePart) := by
  have h := (c5_occurrence_check_inspects_all_counters
    ((SelectorChain.new.element "a").2.element "b").2 "c").2.2.2.2 (by decide)
  exact ⟨h.1, h.2.1, h.2.2 (by decide)⟩

/-- C6: A failing part append (either error) leaves the accumulated text
unchanged — it still holds exactly the previously validated parts, the
invalid part's rendered form is never appended — and `selectorOrder` is not
updated to the failing part's rank. -/
theorem c6_failed_append_preserves_text_and_rank
    (s : SelectorChain) (k : PartKind) (v : String)
    (h : ((appendPart s k v).1).isSome = true) :
    (appendPart s k v).2.selectorChain = s.selectorChain ∧
    (appendPart s k v).2.selectorOrder = s.selectorOrder := by
  cases k <;>
    simp only [appendPart, element_ite, id_ite, classPart_ite, attr_ite,
      pseudoClass_ite, pseudoElement_ite] at h ⊢ <;>
    split_ifs at h ⊢ <;> simp_all

/-- Witness for C6: a `class` append after an `attr` part fails and leaves
text and rank untouched. -/
theorem c6_witness :
    (appendPart (SelectorChain.new.attr "x").2 PartKind.classPart "c").2.selectorChain =
      (SelectorChain.new.attr "x").2.selectorChain ∧
    (appendPart (SelectorChain.new.attr "x").2 PartKind.classPart "c").2.selectorOrder =
      (SelectorChain.new.attr "x").2.selectorOrder :=
  c6_failed_append_preserves_text_and_rank (SelectorChain.new.attr "x").2
    PartKind.classPart "c" (by decide)

/-- C7: `stringify()` returns the current text and resets the text to the
empty string, but preserves the three occurrence counters and
`selectorOrder`; a second `stringify()` returns the empty string, and an
append after `stringify()` has the same error outcome as before it. -/
theorem c7_stringify_resets_text_only (s : SelectorChain) (k : PartKind) (v : String) :
    s.stringify.1 = s.selectorChain ∧
    s.stringify.2.selectorChain = "" ∧
    (s.stringify.2.idCount = s.idCount ∧
     s.stringify.2.elementCount = s.elementCount ∧
     s.stringify.2.pseudoElementCount = s.pseudoElementCount ∧
     s.stringify.2.selectorOrder = s.selectorOrder) ∧
    s.stringify.2.stringify.1 = "" ∧
    (appendPart s.stringify.2 k v).1 = (appendPart s k v).1 :=
  ⟨rfl, rfl, ⟨rfl, rfl, rfl, rfl⟩, rfl,
   appendPart_error_congr s.stringify.2 s k v rfl rfl rfl rfl⟩

/-- C8: `combine` treats `left` and `right` as read-only inputs: their full
states are unchanged by the call, and their texts are copied into the
receiver's composed text. -/
theorem c8_combine_does_not_mutate_inputs
    (s l r : SelectorChain) (c : String) :
    (SelectorChain.combineFull s l c r).2.1 = l ∧
    (SelectorChain.combineFull s l c r).2.2 = r ∧
    (SelectorChain.combineFull s l c r).1.selectorChain =
      l.selectorChain ++ " " ++ c ++ " " ++ r.selectorChain :=
  ⟨rfl, rfl, rfl⟩

/-- C9: `combine` overwrites only the receiver's text: its counters and
`selectorOrder` keep their prior values, so an append performed after a
`combine` has the same error outcome as one performed before it. -/
theorem c9_combine_preserves_validation_state
    (s l r : SelectorChain) (c : String) (k : PartKind) (v : String) :
    ((s.combine l c r).idCount = s.idCount ∧
     (s.combine l c r).elementCount = s.elementCount ∧
     (s.combine l c r).pseudoElementCount = s.pseudoElementCount ∧
     (s.combine l c r).selectorOrder = s.selectorOrder) ∧
    (appendPart (s.combine l c r) k v).1 = (appendPart s k v).1 :=
  ⟨⟨rfl, rfl, rfl, rfl⟩,
   appendPart_error_congr (s.combine l c r) s k v rfl rfl rfl rfl⟩

/-- C10: On a freshly constructed builder the first append of any kind with
any value succeeds without error. -/
theorem c10_first_append_always_succeeds (k : PartKind) (v : String) :
    (appendPart SelectorChain.new k v).1 = none := by
  cases k <;>
    simp [appendPart, element_ite, id_ite, classPart_ite, attr_ite,
      pseudoClass_ite, pseudoElement_ite, SelectorChain.new]
